import Mathlib

/-
Verification of the consular bridge (Marathon → Consul synchronization).

This file gives a shallow embedding of `consular/main.py` and
`consular/clients.py`: the pure request-construction and filtering logic is
translated into executable Lean definitions, the HTTP environment (responses
from Marathon and Consul) is passed in explicitly through an `Env` record,
and raised Python exceptions are modelled with `Except String`.  The theorems
at the end of the file settle the frozen claims about this code.
-/

namespace Consular

/-! ### Basic string helpers (Python string primitives used by the source) -/

/-- Concatenation of a list of strings, i.e. Python `''.join(...)`. -/
def str_concat : List String → String
  | [] => ""
  | s :: rest => s ++ str_concat rest

/-- Python `sep.join(xs)`. -/
def join_sep (sep : String) : List String → String
  | [] => ""
  | [x] => x
  | x :: rest => x ++ sep ++ join_sep sep rest

/-- `(s ++ t).data = s.data ++ t.data` (definitional for `String`). -/
theorem data_append (s t : String) : (s ++ t).data = s.data ++ t.data := by
  cases s; cases t; rfl

/-- Python `s.startswith(p)`. -/
def str_starts_with (s p : String) : Bool :=
  p.data.isPrefixOf s.data

/-- Python `s.lstrip(chars)`: drop leading characters that belong to the
character SET of `chars` (this is the set-based strip the source uses). -/
def py_lstrip_set (s chars : String) : String :=
  String.mk (s.data.dropWhile (fun c => chars.data.elem c))

/-- Everything after the first occurrence of `c`, if any. -/
def after_first (c : Char) : List Char → Option (List Char)
  | [] => none
  | x :: xs => if x = c then some xs else after_first c xs

/-- Python `s.split(sep, n)[-1]`: the remainder after the first
`min(n, count)` occurrences of the separator. -/
def py_split_tail (c : Char) : Nat → List Char → List Char
  | 0, l => l
  | n + 1, l =>
    match after_first c l with
    | none => l
    | some rest => py_split_tail c n rest

/-! ### Percent / JSON encodings used when building request URLs and bodies -/

def hex_digit_upper (n : Nat) : Char :=
  if n < 10 then Char.ofNat (48 + n) else Char.ofNat (55 + n)

def hex_digit_lower (n : Nat) : Char :=
  if n < 10 then Char.ofNat (48 + n) else Char.ofNat (87 + n)

/-- Two uppercase hex digits, as used by Python 2 `urllib.quote` (`%%%02X`). -/
def hex2 (n : Nat) : String :=
  String.mk [hex_digit_upper (n / 16 % 16), hex_digit_upper (n % 16)]

/-- Four lowercase hex digits, as used by `json.dumps` (`\u%04x`). -/
def hex4 (n : Nat) : String :=
  String.mk [hex_digit_lower (n / 4096 % 16), hex_digit_lower (n / 256 % 16),
             hex_digit_lower (n / 16 % 16), hex_digit_lower (n % 16)]

/-- UTF-8 bytes of a character (Python 2 `quote` operates on the UTF-8
encoded byte string). -/
def utf8_bytes (c : Char) : List Nat :=
  let n := c.toNat
  if n < 128 then [n]
  else if n < 2048 then [192 + n / 64, 128 + n % 64]
  else if n < 65536 then [224 + n / 4096, 128 + n / 64 % 64, 128 + n % 64]
  else [240 + n / 262144, 128 + n / 4096 % 64, 128 + n / 64 % 64, 128 + n % 64]

/-- Python 2 `urllib.always_safe` membership: letters, digits, `_`, `.`, `-`. -/
def is_always_safe (c : Char) : Bool :=
  (65 ≤ c.toNat && c.toNat ≤ 90) || (97 ≤ c.toNat && c.toNat ≤ 122) ||
  (48 ≤ c.toNat && c.toNat ≤ 57) || c = '_' || c = '.' || c = '-'

/-- Python 2 `urllib.quote(s)` with the default `safe='/'`. -/
def py_quote (s : String) : String :=
  str_concat (s.data.map (fun c =>
    if is_always_safe c || c = '/' then String.mk [c]
    else str_concat ((utf8_bytes c).map (fun b => "%" ++ hex2 b))))

/-- Python 2 `urllib.quote_plus(s)` (used by `urlencode`): space becomes `+`,
nothing besides the always-safe characters is kept literal. -/
def py_quote_plus (s : String) : String :=
  str_concat (s.data.map (fun c =>
    if c = ' ' then "+"
    else if is_always_safe c then String.mk [c]
    else str_concat ((utf8_bytes c).map (fun b => "%" ++ hex2 b))))

/-- One character of `json.dumps` output with the default `ensure_ascii=True`:
characters outside `0x20..0x7e` and the two JSON metacharacters are escaped. -/
def json_escape_char (c : Char) : String :=
  if c = '"' then "\\\""
  else if c = '\\' then "\\\\"
  else if c = '\n' then "\\n"
  else if c = '\r' then "\\r"
  else if c = '\t' then "\\t"
  else if c.toNat = 8 then "\\b"
  else if c.toNat = 12 then "\\f"
  else if c.toNat < 32 then "\\u" ++ hex4 c.toNat
  else if c.toNat < 127 then String.mk [c]
  else if c.toNat < 65536 then "\\u" ++ hex4 c.toNat
  else
    let m := c.toNat - 65536
    "\\u" ++ hex4 (55296 + m / 1024) ++ "\\u" ++ hex4 (56320 + m % 1024)

/-- `json.dumps` of a Python string. -/
def json_dumps_string (s : String) : String :=
  "\"" ++ str_concat (s.data.map json_escape_char) ++ "\""

/-- JSON values, enough for the request payloads the bridge sends. -/
inductive Json where
  | str (s : String)
  | num (n : Nat)
  | arr (xs : List Json)
  | obj (fields : List (String × Json))

mutual

/-- `json.dumps` with the default separators `(', ', ': ')`. -/
def json_dumps : Json → String
  | .str s => json_dumps_string s
  | .num n => toString n
  | .arr xs => "[" ++ json_dumps_list xs ++ "]"
  | .obj fs => "\x7b" ++ json_dumps_obj fs ++ "\x7d"

def json_dumps_list : List Json → String
  | [] => ""
  | [x] => json_dumps x
  | x :: rest => json_dumps x ++ ", " ++ json_dumps_list rest

def json_dumps_obj : List (String × Json) → String
  | [] => ""
  | [f] => json_dumps_string f.1 ++ ": " ++ json_dumps f.2
  | f :: rest => json_dumps_string f.1 ++ ": " ++ json_dumps f.2 ++ ", " ++ json_dumps_obj rest

end

/-! ### Data model -/

/-- A Marathon app as returned by `GET /v2/apps`: the fields the bridge
reads (`app['id']`, `app.get('labels', {})`). -/
structure App where
  id : String
  labels : List (String × String)
deriving DecidableEq, Repr

/-- A Marathon task as returned by `GET /v2/apps/<id>/tasks`: the fields the
bridge reads (`task['id']`, `task['host']`, `task['ports']`). -/
structure Task where
  id : String
  host : String
  ports : List Nat
deriving DecidableEq, Repr

/-- The body of a Consul service registration built by
`_create_service_registration`. -/
structure Registration where
  name : String
  id : String
  address : String
  port : Nat
  tags : List String
deriving DecidableEq, Repr

/-- One entry of the map returned by `GET <agent>/v1/agent/services`:
`service['Service']` and `service['Tags']` (the latter may be JSON `null`,
modelled as `none`). -/
structure AgentService where
  service : String
  tags : Option (List String)
deriving DecidableEq, Repr

/-- The configuration of a `Consular` instance: endpoints, registration id,
and the two timeouts (`_timeout = 5`, `fallback_timeout = 2`). -/
structure Config where
  consulEndpoint : String
  marathonEndpoint : String
  registrationId : String
  enableFallback : Bool := true
  timeout : Nat := 5
  fallbackTimeout : Nat := 2
deriving DecidableEq, Repr

/-- An outbound HTTP request as issued by `Consular._request` /
`JsonClient.request`: the body is `json.dumps(data)` when data is present. -/
structure HttpRequest where
  method : String
  url : String
  body : Option String
  timeout : Nat
deriving DecidableEq, Repr

/-- The HTTP environment: responses the scheduler and the catalog give to the
bridge's reads.  `tasks appId` is the optional `tasks` field of
`GET /v2/apps<appId>/tasks` (`none` = field absent), `getApp` the optional
`app` field, `consulKeysFor name` the keys listed under `consular/<name>`,
`consularKeys` the entries listed under `consular/` with separator `/`,
`nodes` the node addresses of `GET /v1/catalog/nodes`, and `agentServices ep`
the service map of `GET <ep>/v1/agent/services`. -/
structure Env where
  tasks : String → Option (List Task)
  getApp : String → Option App
  consulKeysFor : String → List String
  consularKeys : List String
  nodes : List String
  agentServices : String → List (String × AgentService)

/-! ### Name derivation and ownership tags -/

/-- `get_app_name`: `app_id.lstrip('/').replace('/', '-')`. -/
def get_app_name (app_id : String) : String :=
  String.mk ((app_id.data.dropWhile (fun c => c = '/')).map
    (fun c => if c = '/' then '-' else c))

/-- `get_agent_endpoint`: `'http://%s:8500' % host`. -/
def get_agent_endpoint (host : String) : String :=
  "http://" ++ host ++ ":8500"

/-- `_consular_tag_key`: `'consular-%s=' % tag_name`. -/
def consular_tag_key (tag_name : String) : String :=
  "consular-" ++ tag_name ++ "="

/-- `_consular_tag`: key followed by value. -/
def consular_tag (tag_name value : String) : String :=
  consular_tag_key tag_name ++ value

/-- `reg_id_tag`. -/
def reg_id_tag (registration_id : String) : String :=
  consular_tag "reg-id" registration_id

/-- `app_id_tag`. -/
def app_id_tag (app_id : String) : String :=
  consular_tag "app-id" app_id

/-- Python `repr` of a list of (quote-free ASCII) strings, as interpolated
into the multiple-tags error message. -/
def py_repr_str_list (xs : List String) : String :=
  "[" ++ join_sep ", " (xs.map (fun s => "'" ++ s ++ "'")) ++ "]"

/-- `_find_consular_tag`: filter the tags by prefix; no match yields `None`,
several matches raise `RuntimeError`, one match is `lstrip`ped with the
pseudo-key as the character set. -/
def find_consular_tag (tags : List String) (tag_name : String) :
    Except String (Option String) :=
  let pseudoKey := consular_tag_key tag_name
  match tags.filter (fun t => str_starts_with t pseudoKey) with
  | [] => .ok none
  | [t] => .ok (some (py_lstrip_set t pseudoKey))
  | ms =>
    .error ("Multiple (" ++ toString ms.length ++ ") Consular tags found for key \""
      ++ pseudoKey ++ "\": " ++ py_repr_str_list ms)

/-- `get_app_id_from_tags`. -/
def get_app_id_from_tags (tags : List String) : Except String (Option String) :=
  find_consular_tag tags "app-id"

/-- `_create_service_registration`. -/
def create_service_registration (registration_id app_id service_id address : String)
    (port : Nat) : Registration :=
  { name := get_app_name app_id
    id := service_id
    address := address
    port := port
    tags := [reg_id_tag registration_id, app_id_tag app_id] }

/-- JSON payload of a registration, with the key order of the source literal. -/
def registration_json (r : Registration) : Json :=
  .obj [("Name", .str r.name), ("ID", .str r.id), ("Address", .str r.address),
        ("Port", .num r.port), ("Tags", .arr (r.tags.map .str))]

/-! ### Request construction (`_request`, `consul_request`, clients) -/

/-- `Consular._request`: the body is `json.dumps(data) if data is not None
else None` and the timeout is `timeout or self._timeout` (so a `None` — or a
falsy `0` — falls back to the default timeout). -/
def raw_request (cfg : Config) (method url : String) (data : Option Json)
    (timeout : Option Nat) : HttpRequest :=
  { method := method
    url := url
    body := data.map json_dumps
    timeout :=
      match timeout with
      | none => cfg.timeout
      | some n => if n = 0 then cfg.timeout else n }

/-- `consul_request`: every Consul request is issued with
`timeout=self.fallback_timeout`. -/
def consul_request (cfg : Config) (method url : String) (data : Option Json) :
    HttpRequest :=
  raw_request cfg method url data (some cfg.fallbackTimeout)

/-- `MarathonClient.marathon_request` by way of `JsonClient.request` with
`timeout=None`, i.e. with the client's default timeout. -/
def marathon_request (cfg : Config) (method path : String) (data : Option Json) :
    HttpRequest :=
  raw_request cfg method (cfg.marathonEndpoint ++ path) data none

/-- The `PUT <agent>/v1/agent/service/register` request of `register_service`. -/
def register_service_request (cfg : Config) (agent_endpoint : String)
    (r : Registration) : HttpRequest :=
  consul_request cfg "PUT" (agent_endpoint ++ "/v1/agent/service/register")
    (some (registration_json r))

/-- The `PUT <agent>/v1/agent/service/deregister/<service_id>` request of
`deregister_service`. -/
def deregister_service_request (cfg : Config) (agent_endpoint service_id : String) :
    HttpRequest :=
  consul_request cfg "PUT"
    (agent_endpoint ++ "/v1/agent/service/deregister/" ++ service_id) none

/-- `put_consul_kv`: `PUT <cluster>/v1/kv/<quote(key)>` with the value as data. -/
def put_consul_kv (cfg : Config) (key value : String) : HttpRequest :=
  consul_request cfg "PUT" (cfg.consulEndpoint ++ "/v1/kv/" ++ py_quote key)
    (some (.str value))

/-- `delete_consul_kv_key`: `DELETE <cluster>/v1/kv/<quote(key)>[?recurse]`. -/
def delete_consul_kv_key (cfg : Config) (key : String) (recurse : Bool) : HttpRequest :=
  consul_request cfg "DELETE"
    (cfg.consulEndpoint ++ "/v1/kv/" ++ py_quote key ++ (if recurse then "?recurse" else ""))
    none

/-- `get_consul_kv_keys`: `GET <cluster>/v1/kv/<quote(path)>?<urlencode(params)>`
where the params are `keys` and optionally `separator`. -/
def get_consul_kv_keys_request (cfg : Config) (key_path : String)
    (separator : Option String) : HttpRequest :=
  consul_request cfg "GET"
    (cfg.consulEndpoint ++ "/v1/kv/" ++ py_quote key_path ++ "?" ++
      (match separator with
       | none => "keys="
       | some s => "keys=&separator=" ++ py_quote_plus s))
    none

/-- The `GET <agent>/v1/agent/services` request of `purge_dead_agent_services`. -/
def agent_services_request (cfg : Config) (agent_endpoint : String) : HttpRequest :=
  consul_request cfg "GET" (agent_endpoint ++ "/v1/agent/services") none

/-- The `GET <cluster>/v1/catalog/nodes` request of `purge_dead_services`. -/
def catalog_nodes_request (cfg : Config) : HttpRequest :=
  consul_request cfg "GET" (cfg.consulEndpoint ++ "/v1/catalog/nodes") none

/-! ### Scheduler client (`clients.py`) -/

/-- `MarathonClient._get_json_field`: a missing field raises `KeyError` when
`raise_error` is set and yields `None` otherwise.  The response JSON object
is modelled as an association list. -/
def get_json_field {α : Type} (response_json : List (String × α))
    (field_name : String) (raise_error : Bool) : Except String (Option α) :=
  match List.lookup field_name response_json with
  | none =>
    if raise_error then
      .error ("Unable to get value for \"" ++ field_name ++ "\" from Marathon response")
    else
      .ok none
  | some v => .ok (some v)

/-- `MarathonClient.get_app_tasks`: the `tasks` field of the response. -/
def get_app_tasks {α : Type} (response_json : List (String × α))
    (raise_error : Bool) : Except String (Option α) :=
  get_json_field response_json "tasks" raise_error

/-! ### Label mirror -/

/-- `_consul_key_to_marathon_app_name`: `consul_key.split('/', 1)[-1]`. -/
def consul_key_to_marathon_app_name (consul_key : String) : String :=
  String.mk (py_split_tail '/' 1 consul_key.data)

/-- `_consul_key_to_marathon_label_key`: `consul_key.split('/', 2)[-1]`. -/
def consul_key_to_marathon_label_key (consul_key : String) : String :=
  String.mk (py_split_tail '/' 2 consul_key.data)

/-- `_filter_marathon_labels`: keep the Consul keys whose label key is not in
the Marathon label set. -/
def filter_marathon_labels (consul_keys : List String)
    (marathon_labels : List (String × String)) : List String :=
  consul_keys.filter (fun key =>
    !((marathon_labels.map Prod.fst).elem (consul_key_to_marathon_label_key key)))

/-- `_filter_marathon_apps`: keep the Consul keys whose derived app name is
not the name of any Marathon app. -/
def filter_marathon_apps (consul_keys : List String) (marathon_apps : List App) :
    List String :=
  consul_keys.filter (fun key =>
    !((marathon_apps.map (fun a => get_app_name a.id)).elem
        (consul_key_to_marathon_app_name key)))

/-- `put_consul_app_labels`: one KV put per label under
`consular/<app_name>/<key>`. -/
def put_consul_app_labels (cfg : Config) (app_name : String)
    (labels : List (String × String)) : List HttpRequest :=
  labels.map (fun kv => put_consul_kv cfg ("consular/" ++ app_name ++ "/" ++ kv.1) kv.2)

/-- `clean_consul_app_labels`: delete the keys under the app whose label key
is no longer present. -/
def clean_consul_app_labels (cfg : Config) (env : Env) (app_name : String)
    (labels : List (String × String)) : List HttpRequest :=
  (filter_marathon_labels (env.consulKeysFor app_name) labels).map
    (fun key => delete_consul_kv_key cfg key false)

/-- `sync_app_labels`: put phase and clean phase. -/
def sync_app_labels (cfg : Config) (env : Env) (app : App) : List HttpRequest :=
  put_consul_app_labels cfg (get_app_name app.id) app.labels ++
  clean_consul_app_labels cfg env (get_app_name app.id) app.labels

/-- `purge_dead_app_labels`: recursively delete every entry of the
`consular/` listing that `_filter_marathon_apps` does not associate with a
live app. -/
def purge_dead_app_labels (cfg : Config) (env : Env) (apps : List App) :
    List HttpRequest :=
  (filter_marathon_apps env.consularKeys apps).map
    (fun key => delete_consul_kv_key cfg key true)

/-! ### Task sync -/

/-- `sync_app_task`: register the task at the agent derived from its host;
`task['ports'][0]` raises `IndexError` on an empty port list. -/
def sync_app_task (registration_id : String) (app : App) (task : Task) :
    Except String (String × Registration) :=
  match task.ports with
  | [] => .error "IndexError: list index out of range"
  | p :: _ =>
    .ok (get_agent_endpoint task.host,
      create_service_registration registration_id app.id task.id task.host p)

/-- `sync_app_tasks`: fetch the app's tasks (`raise_error=True`, so a missing
`tasks` field is fatal) and register each one. -/
def sync_app_tasks (cfg : Config) (env : Env) (app : App) :
    Except String (List HttpRequest) :=
  match env.tasks app.id with
  | none => .error ("Unable to get value for \"tasks\" from Marathon response")
  | some tasks =>
    tasks.mapM (fun t =>
      (sync_app_task cfg.registrationId app t).map
        (fun er => register_service_request cfg er.1 er.2))

/-- `sync_app`: label sync and task sync for one app. -/
def sync_app (cfg : Config) (env : Env) (app : App) : Except String (List HttpRequest) :=
  (sync_app_tasks cfg env app).map (fun tw => sync_app_labels cfg env app ++ tw)

/-! ### Namespace-clash check -/

/-- `name_ids.setdefault(app_name, []).append(app_id)`: append to the entry
of the name, creating it at the end when absent. -/
def add_name_id (acc : List (String × List String)) (name i : String) :
    List (String × List String) :=
  match acc with
  | [] => [(name, [i])]
  | (k, ids) :: rest =>
    if k == name then (k, ids ++ [i]) :: rest else (k, ids) :: add_name_id rest name i

/-- The app-name → app-ids map built by `check_apps_namespace_clash`. -/
def name_ids (apps : List App) : List (String × List String) :=
  apps.foldl (fun acc app => add_name_id acc (get_app_name app.id) app.id) []

/-- The entries of the map whose id list has more than one element. -/
def collisions (apps : List App) : List (String × List String) :=
  (name_ids apps).filter (fun p => decide (1 < p.2.length))

/-- One line `'%s => %s' % (name, ', '.join(ids))` per collision. -/
def collision_lines (apps : List App) : List String :=
  (collisions apps).map (fun p => p.1 ++ " => " ++ join_sep ", " p.2)

/-- Byte-wise lexicographic comparison on code points, i.e. the order Python
`sorted` uses on these strings. -/
def lex_le : List Char → List Char → Bool
  | [], _ => true
  | _ :: _, [] => false
  | a :: as', b :: bs' =>
    if a.toNat < b.toNat then true
    else if b.toNat < a.toNat then false
    else lex_le as' bs'

def str_le_prop (s t : String) : Prop := lex_le s.data t.data = true

instance : DecidableRel str_le_prop := fun s t =>
  inferInstanceAs (Decidable (lex_le s.data t.data = true))

/-- `sorted(...)` of the collision lines. -/
def sorted_collision_lines (apps : List App) : List String :=
  List.insertionSort str_le_prop (collision_lines apps)

/-- The `RuntimeError` message raised on a namespace clash. -/
def clash_message (apps : List App) : String :=
  "The following Consul service name(s) will resolve to multiple Marathon app names: \n"
    ++ join_sep "\n" (sorted_collision_lines apps)

/-- `check_apps_namespace_clash`: raise if any name maps to several ids,
otherwise pass the apps through. -/
def check_apps_namespace_clash (apps : List App) : Except String (List App) :=
  if (collisions apps).isEmpty then .ok apps else .error (clash_message apps)

/-! ### Purge engine -/

/-- `_filter_marathon_tasks`: a falsy task list (`None` or `[]`) keeps every
Consul service id; otherwise drop the ids of running tasks. -/
def filter_marathon_tasks (marathon_tasks : Option (List Task))
    (consul_service_ids : List String) : List String :=
  match marathon_tasks with
  | none => consul_service_ids
  | some [] => consul_service_ids
  | some tasks =>
    consul_service_ids.filter (fun sid => !((tasks.map Task.id).elem sid))

/-- `purge_service_if_dead`: fetch the app's tasks with `raise_error=False`
and keep the service ids with no matching task. -/
def purge_service_if_dead (env : Env) (app_id : String)
    (consul_task_ids : List String) : List String :=
  filter_marathon_tasks (env.tasks app_id) consul_task_ids

/-- The first loop of `purge_dead_agent_services`: for each listed service,
if its tags are truthy and contain the reg-id tag, extract the app id (a
`RuntimeError` from `get_app_id_from_tags` propagates and aborts the loop);
services with no app-id tag are logged and skipped. -/
def collect_owned_services (registration_id : String) :
    List (String × AgentService) → Except String (List (String × String))
  | [] => .ok []
  | (service_id, service) :: rest =>
    match service.tags with
    | none => collect_owned_services registration_id rest
    | some tags =>
      if tags ≠ [] ∧ reg_id_tag registration_id ∈ tags then
        match get_app_id_from_tags tags with
        | .error e => .error e
        | .ok none => collect_owned_services registration_id rest
        | .ok (some app_id) =>
          match collect_owned_services registration_id rest with
          | .error e => .error e
          | .ok pairs => .ok ((app_id, service_id) :: pairs)
      else collect_owned_services registration_id rest

/-- The `services.setdefault(app_id, set()).add(service_id)` grouping. -/
def group_by_app (pairs : List (String × String)) : List (String × List String) :=
  pairs.foldl (fun acc p => add_name_id acc p.1 p.2) []

/-- `purge_dead_agent_services` for one agent's service map: collect the
services owned by this bridge, group them by app id, and deregister the ids
`purge_service_if_dead` reports as dead.  The result is the list of
deregistered service ids. -/
def purge_dead_agent_services (env : Env) (registration_id : String)
    (data : List (String × AgentService)) : Except String (List String) :=
  (collect_owned_services registration_id data).map (fun pairs =>
    (group_by_app pairs).flatMap (fun g => purge_service_if_dead env g.1 g.2))

/-- `purge_dead_services`: run the per-agent purge at every node of the
catalog, turning each dead service id into a deregister request. -/
def purge_dead_services (cfg : Config) (env : Env) : Except String (List HttpRequest) :=
  (env.nodes.mapM (fun address =>
    let ep := get_agent_endpoint address
    (purge_dead_agent_services env cfg.registrationId (env.agentServices ep)).map
      (fun sids => sids.map (deregister_service_request cfg ep)))).map List.flatten

/-! ### Full sync -/

/-- `sync_and_purge_apps`: sync every app; with `purge` set also purge dead
services and dead app labels. -/
def sync_and_purge_apps (cfg : Config) (env : Env) (apps : List App) (purge : Bool) :
    Except String (List HttpRequest) := do
  let ws ← apps.mapM (sync_app cfg env)
  if purge then
    let pd ← purge_dead_services cfg env
    pure (ws.flatten ++ pd ++ purge_dead_app_labels cfg env apps)
  else
    pure ws.flatten

/-- `sync_apps`: namespace-clash check first, then sync (and optionally
purge).  No request is issued when the check raises. -/
def sync_apps (cfg : Config) (env : Env) (apps : List App) (purge : Bool) :
    Except String (List HttpRequest) :=
  (check_apps_namespace_clash apps).bind (fun checked =>
    sync_and_purge_apps cfg env checked purge)

/-! ### Event handler -/

/-- The fields of a Marathon event the handler reads; each is optional since
a JSON object may omit it (`event['...']` raises `KeyError` when absent). -/
structure Event where
  eventType : Option String
  taskStatus : Option String
  appId : Option String
  taskId : Option String
  host : Option String
deriving DecidableEq, Repr

inductive TaskAction where
  | noop
  | updateRunning
  | updateKilled
deriving DecidableEq, Repr

/-- The dispatch dict of `handle_status_update_event`. -/
def status_dispatch_table : List (String × TaskAction) :=
  [("TASK_STAGING", .noop), ("TASK_STARTING", .noop), ("TASK_RUNNING", .updateRunning),
   ("TASK_FINISHED", .updateKilled), ("TASK_FAILED", .updateKilled),
   ("TASK_KILLED", .updateKilled), ("TASK_LOST", .updateKilled)]

/-- `dispatch.get(event['taskStatus'])`. -/
def status_dispatch (s : String) : Option TaskAction :=
  List.lookup s status_dispatch_table

/-- The seven task statuses the handler recognizes. -/
def recognized_statuses : List String :=
  ["TASK_STAGING", "TASK_STARTING", "TASK_RUNNING", "TASK_FINISHED", "TASK_FAILED",
   "TASK_KILLED", "TASK_LOST"]

/-- `json.dumps({'status': 'ok'})`. -/
def ok_body : String := json_dumps (.obj [("status", .str "ok")])

/-- `handle_status_update_event`: look the task status up in the dispatch
dict; a missing field raises `KeyError`, an unknown status makes the `None`
handler call raise `TypeError`.  On success the result is the response body
plus the Consul requests issued. -/
def handle_status_update_event (cfg : Config) (env : Env) (event : Event) :
    Except String (String × List HttpRequest) :=
  match event.taskStatus with
  | none => .error "KeyError: taskStatus"
  | some s =>
    match status_dispatch s with
    | none => .error "TypeError: NoneType object is not callable"
    | some .noop => .ok (ok_body, [])
    | some .updateRunning =>
      match event.appId with
      | none => .error "KeyError: appId"
      | some app_id =>
        match env.getApp app_id with
        | none => .error ("Unable to get value for \"app\" from Marathon response")
        | some app => (sync_app cfg env app).map (fun ws => (ok_body, ws))
    | some .updateKilled =>
      match event.host, event.appId, event.taskId with
      | some host, some _, some task_id =>
        .ok (ok_body,
          [deregister_service_request cfg (get_agent_endpoint host) task_id])
      | _, _, _ => .error "KeyError: host / appId / taskId"

/-- The observable outcome of a `POST /events` request: Klein turns an
uncaught exception into a 500 response. -/
inductive HttpResult where
  | ok (body : String)
  | badRequest (body : String)
  | serverError
deriving DecidableEq, Repr

/-- Python `'%s' % value` for an optional string (`None` prints as `None`). -/
def py_str_opt : Option String → String
  | none => "None"
  | some s => s

/-- The `/events` route: dispatch on `eventType` with
`handle_unknown_event` (HTTP 400) as the default handler. -/
def handle_events (cfg : Config) (env : Env) (event : Event) :
    HttpResult × List HttpRequest :=
  if event.eventType == some "status_update_event" then
    match handle_status_update_event cfg env event with
    | .error _ => (.serverError, [])
    | .ok (body, ws) => (.ok body, ws)
  else
    (.badRequest (json_dumps (.obj [("error",
        .str ("Event type " ++ py_str_opt event.eventType ++ " not supported."))])), [])

/-! ### Auxiliary definitions used by the verification -/

/-- The ids of the apps whose derived name is `m`, in list order — the value
`check_apps_namespace_clash` accumulates for the key `m`. -/
def ids_for (m : String) (apps : List App) : List String :=
  (apps.filter (fun a => get_app_name a.id == m)).map App.id

/-- A character `json.dumps` emits verbatim inside a string: printable
ASCII that is neither `"` nor a backslash. -/
def plain_json_char (c : Char) : Bool :=
  (32 ≤ c.toNat && c.toNat < 127) && c ≠ '"' && c ≠ '\\'

/-- A bridge instance with the default timeouts, as in the test suite. -/
def cfg0 : Config :=
  { consulEndpoint := "http://localhost:8500"
    marathonEndpoint := "http://localhost:8080"
    registrationId := "the-uuid" }

/-- An environment whose scheduler knows no apps and no tasks and whose
`consular/` listing holds the single directory entry of the live app
`/my-app`. -/
def env_live_app : Env :=
  { tasks := fun _ => none
    getApp := fun _ => none
    consulKeysFor := fun _ => []
    consularKeys := ["consular/my-app/"]
    nodes := []
    agentServices := fun _ => [] }

/-- An environment where `/app-a` has the single running task `t2`. -/
def env_purge_demo : Env :=
  { tasks := fun app_id => if app_id = "/app-a" then some [⟨"t2", "host-1", [80]⟩] else none
    getApp := fun _ => none
    consulKeysFor := fun _ => []
    consularKeys := []
    nodes := []
    agentServices := fun _ => [] }

/-- One agent service owned by this bridge (reg-id `the-uuid`, app `/app-a`,
service id `t1`). -/
def agent_data_demo : List (String × AgentService) :=
  [("t1", ⟨"app-a", some ["consular-reg-id=the-uuid", "consular-app-id=/app-a"]⟩)]

/-- An agent service map with one ambiguously-tagged service (`s1`, two
app-id tags) next to an ordinarily-tagged dead service (`s2`). -/
def agent_data_ambiguous : List (String × AgentService) :=
  [("s1", ⟨"svc-a", some ["consular-reg-id=r", "consular-app-id=/a", "consular-app-id=/b"]⟩),
   ("s2", ⟨"svc-b", some ["consular-reg-id=r", "consular-app-id=/b"]⟩)]

/-- Two Marathon apps whose names collide (`/foo/bar` and `/foo-bar` both
map to `foo-bar`), the scenario of the spec. -/
def clash_apps : List App :=
  [⟨"/foo/bar", []⟩, ⟨"/foo-bar", []⟩]

/-- An unrecognized status-update event. -/
def event_unknown_status : Event :=
  ⟨some "status_update_event", some "TASK_EXITED", none, none, none⟩

/-- Totality of the byte-wise comparison, packaged for `insertionSort`. -/
instance : IsTotal String str_le_prop := by
  constructor
  intro s t
  show lex_le s.data t.data = true ∨ lex_le t.data s.data = true
  generalize s.data = a
  generalize t.data = b
  induction a generalizing b with
  | nil => left; rfl
  | cons x xs ih =>
    cases b with
    | nil => right; rfl
    | cons y ys =>
      simp only [lex_le]
      rcases Nat.lt_trichotomy x.toNat y.toNat with h | h | h
      · left; simp [h]
      · have hx : ¬ x.toNat < y.toNat := by omega
        have hy : ¬ y.toNat < x.toNat := by omega
        rcases ih ys with h2 | h2
        · left; simp [hx, hy, h2]
        · right; simp [hx, hy, h2]
      · right; simp [h]

/-- Transitivity of the byte-wise comparison, packaged for `insertionSort`. -/
instance : IsTrans String str_le_prop := by
  constructor
  intro s t u
  show lex_le s.data t.data = true → lex_le t.data u.data = true →
    lex_le s.data u.data = true
  generalize s.data = a
  generalize t.data = b
  generalize u.data = c
  induction a generalizing b c with
  | nil => intro _ _; rfl
  | cons x xs ih =>
    intro hab hbc
    cases b with
    | nil => simp [lex_le] at hab
    | cons y ys =>
      cases c with
      | nil => simp [lex_le] at hbc
      | cons z zs =>
        simp only [lex_le] at hab hbc ⊢
        by_cases hxy : x.toNat < y.toNat
        · by_cases hyz : y.toNat < z.toNat
          · simp [Nat.lt_trans hxy hyz]
          · by_cases hzy : z.toNat < y.toNat
            · simp [hyz, hzy] at hbc
            · have hxz : x.toNat < z.toNat := by omega
              simp [hxz]
        · by_cases hyx : y.toNat < x.toNat
          · simp [hxy, hyx] at hab
          · simp only [if_neg hxy, if_neg hyx] at hab
            by_cases hyz : y.toNat < z.toNat
            · have hxz : x.toNat < z.toNat := by omega
              simp [hxz]
            · by_cases hzy : z.toNat < y.toNat
              · simp [hyz, hzy] at hbc
              · simp only [if_neg hyz, if_neg hzy] at hbc
                have h1 : ¬ x.toNat < z.toNat := by omega
                have h2 : ¬ z.toNat < x.toNat := by omega
                simp [h1, h2, ih ys zs hab hbc]

/-! ### Helper lemmas -/

/-- Dropping while a predicate holds skips a block that satisfies it wholesale. -/
theorem dropWhile_append_all {p : Char → Bool} (l1 l2 : List Char)
    (hall : ∀ c ∈ l1, p c = true) :
    (l1 ++ l2).dropWhile p = l2.dropWhile p := by
  induction l1 with
  | nil => rfl
  | cons c cs ih =>
    have hc : p c = true := hall c (List.mem_cons_self c cs)
    simp only [List.cons_append, List.dropWhile_cons, hc, if_true]
    exact ih (fun d hd => hall d (List.mem_cons_of_mem _ hd))

/-- `json.dumps` emits printable, non-metacharacter ASCII verbatim. -/
theorem json_escape_char_plain (c : Char) (h : plain_json_char c = true) :
    json_escape_char c = String.mk [c] := by
  simp only [plain_json_char, Bool.and_eq_true, decide_eq_true_eq,
    bne_iff_ne, ne_eq] at h
  obtain ⟨⟨⟨hlo, hhi⟩, hq⟩, hb⟩ := h
  have h10 : c ≠ '\n' := by intro he; subst he; simp at hlo
  have h13 : c ≠ '\r' := by intro he; subst he; simp at hlo
  have h9 : c ≠ '\t' := by intro he; subst he; simp at hlo
  have h8 : c.toNat ≠ 8 := by omega
  have h12 : c.toNat ≠ 12 := by omega
  have h32 : ¬ c.toNat < 32 := by omega
  simp [json_escape_char, hq, hb, h10, h13, h9, h8, h12, h32, hhi]

/-- Escaping a string of plain characters is the identity. -/
theorem str_concat_escape_plain (l : List Char) (h : l.all plain_json_char = true) :
    str_concat (l.map json_escape_char) = String.mk l := by
  induction l with
  | nil => rfl
  | cons c cs ih =>
    rw [List.all_cons, Bool.and_eq_true] at h
    show json_escape_char c ++ str_concat (cs.map json_escape_char) = String.mk (c :: cs)
    rw [json_escape_char_plain c h.1, ih h.2]
    rfl

/-! ### C1 — app-level label purge -/

/-- C1 (claim refuted, code bug): `purge_dead_app_labels` deletes the
subtree of a LIVE app.  The `consular/` listing with separator `/` returns
directory entries of the form `consular/<app-name>/`; `split('/', 1)[-1]`
keeps the trailing slash, so the derived name `my-app/` never equals the
app name `my-app` and the key of the live app `/my-app` is recursively
deleted, contradicting the claim (and the function's own docstring) that
only dead apps' subtrees are deleted. -/
theorem purge_dead_app_labels_deletes_live_app :
    get_app_name "/my-app" = "my-app" ∧
    consul_key_to_marathon_app_name "consular/my-app/" = "my-app/" ∧
    purge_dead_app_labels cfg0 env_live_app [⟨"/my-app", []⟩] =
      [{ method := "DELETE", url := "http://localhost:8500/v1/kv/consular/my-app/?recurse",
         body := none, timeout := 2 }] :=
  ⟨rfl, rfl, rfl⟩

/-! ### C2 — app-id tag extraction -/

/-- C2 counterexample: the claim says the value after `consular-app-id=` is
returned verbatim for every value string, but for the value `consular`
(whose characters all occur in the prefix) the set-based `lstrip` strips
everything and the empty string is returned instead. -/
theorem get_app_id_from_tags_strips_value :
    get_app_id_from_tags ["consular-app-id=consular"] = .ok (some "") ∧
    ("" : String) ≠ "consular" :=
  ⟨rfl, by decide⟩

/-- C2 (amended): on a tag list whose unique `consular-app-id=`-prefixed tag
is `consular-app-id=` followed by `v`, `get_app_id_from_tags` returns `v`
with all LEADING characters drawn from the character set of
`consular-app-id=` removed (so values starting with other characters — all
real app ids start with `/` — come back verbatim). -/
theorem get_app_id_from_tags_set_strip (tags : List String) (v : String)
    (hfilter : tags.filter (fun t => str_starts_with t (consular_tag_key "app-id")) =
      [consular_tag_key "app-id" ++ v]) :
    get_app_id_from_tags tags =
      .ok (some (String.mk (v.data.dropWhile
        (fun c => (consular_tag_key "app-id").data.elem c)))) := by
  simp only [get_app_id_from_tags, find_consular_tag]
  rw [hfilter]
  show Except.ok (some (py_lstrip_set (consular_tag_key "app-id" ++ v)
    (consular_tag_key "app-id"))) = _
  unfold py_lstrip_set
  rw [data_append, dropWhile_append_all _ _
    (fun c hc => List.elem_iff.mpr hc)]

/-- C2 witness: for the app-id value `/my-app` (leading `/` is not a prefix
character) the extracted value is exact. -/
theorem get_app_id_from_tags_set_strip_witness :
    get_app_id_from_tags ["consular-app-id=/my-app"] = .ok (some "/my-app") :=
  get_app_id_from_tags_set_strip ["consular-app-id=/my-app"] "/my-app" (by decide)

/-! ### C3 — registration construction -/

/-- C3: for every app and task with a nonempty port list, `sync_app_task`
registers at the agent endpoint derived from the task host a body whose
Name is the derived app name, ID the task id, Address the task host, Port
the first port, and whose Tags contain both ownership tags. -/
theorem sync_app_task_builds_registration (registration_id : String) (app : App)
    (task : Task) (p : Nat) (ps : List Nat) (hports : task.ports = p :: ps) :
    ∃ reg : Registration,
      sync_app_task registration_id app task = .ok (get_agent_endpoint task.host, reg) ∧
      reg.name = get_app_name app.id ∧ reg.id = task.id ∧ reg.address = task.host ∧
      reg.port = p ∧ reg_id_tag registration_id ∈ reg.tags ∧
      app_id_tag app.id ∈ reg.tags := by
  refine ⟨create_service_registration registration_id app.id task.id task.host p,
    ?_, rfl, rfl, rfl, rfl, ?_, ?_⟩
  · unfold sync_app_task
    rw [hports]
  · simp [create_service_registration]
  · simp [create_service_registration]

/-- C3 witness: the RUNNING-event scenario values of the spec. -/
theorem sync_app_task_builds_registration_witness :
    ∃ reg : Registration,
      sync_app_task "the-uuid" ⟨"/my-app", []⟩
          ⟨"my-app_0-1396592784349", "slave-1234.acme.org", [31372]⟩ =
        .ok (get_agent_endpoint "slave-1234.acme.org", reg) ∧
      reg.name = get_app_name "/my-app" ∧ reg.id = "my-app_0-1396592784349" ∧
      reg.address = "slave-1234.acme.org" ∧ reg.port = 31372 ∧
      reg_id_tag "the-uuid" ∈ reg.tags ∧ app_id_tag "/my-app" ∈ reg.tags :=
  sync_app_task_builds_registration "the-uuid" _ _ 31372 [] rfl

/-! ### C7 — timeouts -/

/-- C7 counterexample: the cluster-wide KV put is issued with the agent
timeout (2s), not with the 5s default timeout the claim assigns to
cluster-wide requests. -/
theorem kv_put_timeout_is_agent_timeout :
    (put_consul_kv cfg0 "consular/my-app/a-label" "v").timeout = 2 ∧
    cfg0.timeout = 5 ∧ (2 : Nat) ≠ 5 :=
  ⟨rfl, rfl, by decide⟩

/-- C7 (amended): every Consul request — per-agent (register, deregister,
agent service list) and cluster-wide (KV put/delete/list, node list) alike —
is issued with the agent/fallback timeout, while scheduler (Marathon)
requests use the default timeout. -/
theorem consul_requests_use_fallback_timeout (cfg : Config)
    (h : cfg.fallbackTimeout ≠ 0) (ep sid key value path method mpath : String)
    (reg : Registration) (recurse : Bool) (sep : Option String)
    (data : Option Json) :
    (register_service_request cfg ep reg).timeout = cfg.fallbackTimeout ∧
    (deregister_service_request cfg ep sid).timeout = cfg.fallbackTimeout ∧
    (agent_services_request cfg ep).timeout = cfg.fallbackTimeout ∧
    (put_consul_kv cfg key value).timeout = cfg.fallbackTimeout ∧
    (delete_consul_kv_key cfg key recurse).timeout = cfg.fallbackTimeout ∧
    (get_consul_kv_keys_request cfg path sep).timeout = cfg.fallbackTimeout ∧
    (catalog_nodes_request cfg).timeout = cfg.fallbackTimeout ∧
    (marathon_request cfg method mpath data).timeout = cfg.timeout := by
  refine ⟨?_, ?_, ?_, ?_, ?_, ?_, ?_, rfl⟩ <;>
    simp [register_service_request, deregister_service_request,
      agent_services_request, put_consul_kv, delete_consul_kv_key,
      get_consul_kv_keys_request, catalog_nodes_request, consul_request,
      raw_request, h]

/-- C7 witness at the default configuration (fallback timeout 2, default 5). -/
theorem consul_requests_use_fallback_timeout_witness :
    (register_service_request cfg0 "http://h:8500"
        ⟨"my-app", "t1", "h", 80, []⟩).timeout = cfg0.fallbackTimeout ∧
    (deregister_service_request cfg0 "http://h:8500" "t1").timeout = cfg0.fallbackTimeout ∧
    (agent_services_request cfg0 "http://h:8500").timeout = cfg0.fallbackTimeout ∧
    (put_consul_kv cfg0 "consular/my-app/k" "v").timeout = cfg0.fallbackTimeout ∧
    (delete_consul_kv_key cfg0 "consular/my-app/k" true).timeout = cfg0.fallbackTimeout ∧
    (get_consul_kv_keys_request cfg0 "consular/" (some "/")).timeout = cfg0.fallbackTimeout ∧
    (catalog_nodes_request cfg0).timeout = cfg0.fallbackTimeout ∧
    (marathon_request cfg0 "GET" "/v2/apps" none).timeout = cfg0.timeout :=
  consul_requests_use_fallback_timeout cfg0 (by decide) "http://h:8500" "t1"
    "consular/my-app/k" "v" "consular/" "GET" "/v2/apps"
    ⟨"my-app", "t1", "h", 80, []⟩ true (some "/") none

/-! ### C8 — KV value encoding -/

/-- C8 counterexample: the KV put body is `json.dumps(value)`, i.e. the
value wrapped in JSON quotes, not the raw string. -/
theorem kv_put_body_is_json_dumped :
    (put_consul_kv cfg0 "consular/my-app/a-label" "v").body = some "\"v\"" ∧
    (some "\"v\"" : Option String) ≠ some "v" :=
  ⟨rfl, by decide⟩

/-- C8 (amended): the label put issues a PUT to
`<cluster>/v1/kv/<quote(key)>` whose body is the JSON encoding of the value
— for values made of plain printable ASCII, the value wrapped in double
quotes. -/
theorem put_consul_kv_request_shape (cfg : Config) (key value : String)
    (h : value.data.all plain_json_char = true) :
    (put_consul_kv cfg key value).method = "PUT" ∧
    (put_consul_kv cfg key value).url =
      cfg.consulEndpoint ++ "/v1/kv/" ++ py_quote key ∧
    (put_consul_kv cfg key value).body = some ("\"" ++ value ++ "\"") := by
  refine ⟨rfl, rfl, ?_⟩
  show some (json_dumps_string value) = some ("\"" ++ value ++ "\"")
  unfold json_dumps_string
  rw [str_concat_escape_plain value.data h]

/-- C8 witness: a concrete label value. -/
theorem put_consul_kv_request_shape_witness :
    (put_consul_kv cfg0 "consular/my-app/a-label" "my-value").method = "PUT" ∧
    (put_consul_kv cfg0 "consular/my-app/a-label" "my-value").url =
      cfg0.consulEndpoint ++ "/v1/kv/" ++ py_quote "consular/my-app/a-label" ∧
    (put_consul_kv cfg0 "consular/my-app/a-label" "my-value").body =
      some ("\"" ++ "my-value" ++ "\"") :=
  put_consul_kv_request_shape cfg0 "consular/my-app/a-label" "my-value" (by decide)

/-! ### C9 — missing tasks field -/

/-- C9 counterexample: with raising disabled and no `tasks` field, the
result is `None`, not the empty list the claim requires. -/
theorem get_app_tasks_missing_not_empty :
    get_app_tasks ([] : List (String × List Task)) false = .ok none ∧
    (Except.ok none : Except String (Option (List Task))) ≠ .ok (some []) :=
  ⟨rfl, by simp⟩

/-- C9 (amended): with raising disabled and the `tasks` field absent, the
operation does not fail and yields `None`; the purge path's task filter
treats that `None` like an empty task set (every Consul service id is kept
as dead). -/
theorem get_app_tasks_missing_yields_none (resp : List (String × List Task))
    (sids : List String) (h : List.lookup "tasks" resp = none) :
    get_app_tasks resp false = .ok none ∧ filter_marathon_tasks none sids = sids := by
  refine ⟨?_, rfl⟩
  simp [get_app_tasks, get_json_field, h]

/-- C9 witness: an empty scheduler response body. -/
theorem get_app_tasks_missing_yields_none_witness :
    get_app_tasks ([] : List (String × List Task)) false = .ok none ∧
    filter_marathon_tasks none ["t1"] = ["t1"] :=
  get_app_tasks_missing_yields_none [] ["t1"] rfl

/-! ### C10 — unrecognized task status -/

/-- C10: a `status_update_event` whose `taskStatus` is absent or not one of
the seven recognized values makes the handler raise (the dispatch lookup
yields no handler and calling it fails), so the request ends in a 500
server error — not a 400 and not a 200 — and no Consul request is issued. -/
theorem handle_events_unrecognized_status_500 (cfg : Config) (env : Env)
    (event : Event) (htype : event.eventType = some "status_update_event")
    (hstatus : ∀ s, event.taskStatus = some s → s ∉ recognized_statuses) :
    handle_events cfg env event = (.serverError, []) := by
  unfold handle_events
  rw [htype]
  simp only [beq_self_eq_true, if_true]
  unfold handle_status_update_event
  cases hts : event.taskStatus with
  | none => rfl
  | some s =>
    have hnot := hstatus s hts
    simp only [recognized_statuses, List.mem_cons, List.not_mem_nil, or_false,
      not_or] at hnot
    obtain ⟨h1, h2, h3, h4, h5, h6, h7⟩ := hnot
    have hdisp : status_dispatch s = none := by
      simp [status_dispatch, status_dispatch_table, List.lookup,
        beq_eq_false_iff_ne.mpr h1, beq_eq_false_iff_ne.mpr h2,
        beq_eq_false_iff_ne.mpr h3, beq_eq_false_iff_ne.mpr h4,
        beq_eq_false_iff_ne.mpr h5, beq_eq_false_iff_ne.mpr h6,
        beq_eq_false_iff_ne.mpr h7]
    simp [hdisp]

/-- C10 witness: the unrecognized status `TASK_EXITED`. -/
theorem handle_events_unrecognized_status_500_witness :
    handle_events cfg0 env_live_app event_unknown_status = (.serverError, []) :=
  handle_events_unrecognized_status_500 cfg0 env_live_app event_unknown_status rfl
    (fun s hs => Option.some.inj hs ▸ (by decide : "TASK_EXITED" ∉ recognized_statuses))

/-! ### Helper lemmas about the purge engine -/

/-- `purge_service_if_dead` only ever returns ids it was given. -/
theorem purge_mem_subset (env : Env) (a : String) (sids : List String)
    (sid : String) (h : sid ∈ purge_service_if_dead env a sids) : sid ∈ sids := by
  unfold purge_service_if_dead filter_marathon_tasks at h
  rcases hta : env.tasks a with _ | ts
  · rw [hta] at h
    exact h
  · rw [hta] at h
    cases ts with
    | nil => exact h
    | cons t ts' => exact (List.mem_filter.mp h).1

/-- Membership in `add_name_id`: an entry either was already present or is
the entry of the inserted name with the new id appended. -/
theorem mem_add_name_id (acc : List (String × List String)) (n i a : String)
    (sids : List String) (h : (a, sids) ∈ add_name_id acc n i) :
    (a, sids) ∈ acc ∨
      (a = n ∧ ∃ old, sids = old ++ [i] ∧ ((n, old) ∈ acc ∨ old = [])) := by
  induction acc with
  | nil =>
    simp only [add_name_id, List.mem_singleton] at h
    obtain ⟨rfl, rfl⟩ := Prod.mk.inj h
    exact Or.inr ⟨rfl, [], rfl, Or.inr rfl⟩
  | cons entry rest ih =>
    obtain ⟨k, ids⟩ := entry
    by_cases hkn : k = n
    · subst hkn
      simp only [add_name_id, beq_self_eq_true, if_true] at h
      rcases List.mem_cons.mp h with heq | hmem
      · obtain ⟨rfl, rfl⟩ := Prod.mk.inj heq
        exact Or.inr ⟨rfl, ids, rfl, Or.inl (List.mem_cons_self _ _)⟩
      · exact Or.inl (List.mem_cons_of_mem _ hmem)
    · simp only [add_name_id, beq_eq_false_iff_ne.mpr hkn, Bool.false_eq_true,
        if_false] at h
      rcases List.mem_cons.mp h with heq | hmem
      · exact Or.inl (heq ▸ List.mem_cons_self _ _)
      · rcases ih hmem with hin | ⟨rfl, old, rfl, hold⟩
        · exact Or.inl (List.mem_cons_of_mem _ hin)
        · refine Or.inr ⟨rfl, old, rfl, ?_⟩
          rcases hold with hold | rfl
          · exact Or.inl (List.mem_cons_of_mem _ hold)
          · exact Or.inr rfl

/-- Soundness of the `setdefault`-style fold: every id grouped under a name
came from a pair with that name. -/
theorem group_fold_sound (ctx : List (String × String)) :
    ∀ (l : List (String × String)) (acc : List (String × List String)),
      (∀ a sids sid, (a, sids) ∈ acc → sid ∈ sids → (a, sid) ∈ ctx) →
      (∀ p ∈ l, p ∈ ctx) →
      ∀ a sids sid,
        (a, sids) ∈ l.foldl (fun acc p => add_name_id acc p.1 p.2) acc →
        sid ∈ sids → (a, sid) ∈ ctx := by
  intro l
  induction l with
  | nil =>
    intro acc hacc _ a sids sid hmem hsid
    exact hacc a sids sid hmem hsid
  | cons p rest ih =>
    intro acc hacc hl a sids sid hmem hsid
    refine ih (add_name_id acc p.1 p.2) ?_ (fun q hq => hl q (List.mem_cons_of_mem _ hq))
      a sids sid hmem hsid
    intro a' sids' sid' hmem' hsid'
    rcases mem_add_name_id acc p.1 p.2 a' sids' hmem' with hin | ⟨rfl, old, rfl, hold⟩
    · exact hacc a' sids' sid' hin hsid'
    · rcases List.mem_append.mp hsid' with holdmem | hnew
      · rcases hold with hold | rfl
        · exact hacc p.1 old sid' hold holdmem
        · simp at holdmem
      · have : sid' = p.2 := by simpa using hnew
        subst this
        exact hl p (List.mem_cons_self _ _)

/-- Soundness of `group_by_app`. -/
theorem group_by_app_sound (pairs : List (String × String)) (a : String)
    (sids : List String) (sid : String) (hmem : (a, sids) ∈ group_by_app pairs)
    (hsid : sid ∈ sids) : (a, sid) ∈ pairs :=
  group_fold_sound pairs pairs [] (by simp) (fun _ hp => hp) a sids sid hmem hsid

/-- Soundness of the collection loop of `purge_dead_agent_services`: every
collected (app-id, service-id) pair comes from a listed service whose tags
are present and contain the bridge's reg-id tag. -/
theorem collect_owned_sound (registration_id : String) :
    ∀ (data : List (String × AgentService)) (pairs : List (String × String)),
      collect_owned_services registration_id data = .ok pairs →
      ∀ a sid, (a, sid) ∈ pairs →
        ∃ svc tags, (sid, svc) ∈ data ∧ svc.tags = some tags ∧
          reg_id_tag registration_id ∈ tags := by
  intro data
  induction data with
  | nil =>
    intro pairs hok a sid hmem
    simp only [collect_owned_services] at hok
    injection hok with h
    subst h
    simp at hmem
  | cons entry rest ih =>
    intro pairs hok a sid hmem
    obtain ⟨sid0, svc0⟩ := entry
    simp only [collect_owned_services] at hok
    rcases htags : svc0.tags with _ | tags0
    · simp only [htags] at hok
      obtain ⟨svc, tags, hmem', htags', hreg⟩ := ih pairs hok a sid hmem
      exact ⟨svc, tags, List.mem_cons_of_mem _ hmem', htags', hreg⟩
    · simp only [htags] at hok
      by_cases hcond : tags0 ≠ [] ∧ reg_id_tag registration_id ∈ tags0
      · rw [if_pos hcond] at hok
        rcases happ : get_app_id_from_tags tags0 with e | o
        · simp only [happ] at hok
          exact Except.noConfusion hok
        · rcases o with _ | app_id
          · simp only [happ] at hok
            obtain ⟨svc, tags, hmem', htags', hreg⟩ := ih pairs hok a sid hmem
            exact ⟨svc, tags, List.mem_cons_of_mem _ hmem', htags', hreg⟩
          · simp only [happ] at hok
            rcases hrest : collect_owned_services registration_id rest with e | ps
            · simp only [hrest] at hok
              exact Except.noConfusion hok
            · simp only [hrest] at hok
              replace hok : Except.ok ((app_id, sid0) :: ps) = Except.ok pairs := hok
              injection hok with h
              subst h
              rcases List.mem_cons.mp hmem with heq | hmem'
              · obtain ⟨rfl, rfl⟩ := Prod.mk.inj heq
                exact ⟨svc0, tags0, List.mem_cons_self _ _, htags, hcond.2⟩
              · obtain ⟨svc, tags, hmem'', htags', hreg⟩ := ih ps hrest a sid hmem'
                exact ⟨svc, tags, List.mem_cons_of_mem _ hmem'', htags', hreg⟩
      · rw [if_neg hcond] at hok
        obtain ⟨svc, tags, hmem', htags', hreg⟩ := ih pairs hok a sid hmem
        exact ⟨svc, tags, List.mem_cons_of_mem _ hmem', htags', hreg⟩

/-! ### C4 — purge ownership isolation -/

/-- C4: whenever the per-agent purge succeeds, every service id it
deregisters belongs to a listed service whose tag list is present, nonempty,
and contains the exact tag `consular-reg-id=<registration-id>`; services
with missing, empty or foreign tags are never touched. -/
theorem purge_dead_agent_services_ownership (env : Env) (registration_id : String)
    (data : List (String × AgentService)) (out : List String)
    (hok : purge_dead_agent_services env registration_id data = .ok out)
    (service_id : String) (hmem : service_id ∈ out) :
    ∃ svc tags, (service_id, svc) ∈ data ∧ svc.tags = some tags ∧
      reg_id_tag registration_id ∈ tags := by
  unfold purge_dead_agent_services at hok
  rcases hc : collect_owned_services registration_id data with e | pairs
  · rw [hc] at hok
    exact Except.noConfusion hok
  · rw [hc] at hok
    replace hok : Except.ok ((group_by_app pairs).flatMap
        (fun g => purge_service_if_dead env g.1 g.2)) = Except.ok out := hok
    injection hok with h
    subst h
    rw [List.mem_flatMap] at hmem
    obtain ⟨g, hg, hsid⟩ := hmem
    obtain ⟨ga, gsids⟩ := g
    have hsub : service_id ∈ gsids := purge_mem_subset env ga gsids service_id hsid
    have hpair : (ga, service_id) ∈ pairs := group_by_app_sound pairs ga gsids service_id hg hsub
    exact collect_owned_sound registration_id data pairs hc ga service_id hpair

/-- C4 witness: one owned service, one running task, the dead id `t1` is
deregistered and the theorem recovers its ownership tags. -/
theorem purge_dead_agent_services_ownership_witness :
    ∃ svc tags, ("t1", svc) ∈ agent_data_demo ∧ svc.tags = some tags ∧
      reg_id_tag "the-uuid" ∈ tags :=
  purge_dead_agent_services_ownership env_purge_demo "the-uuid" agent_data_demo
    ["t1"] rfl "t1" (by decide)

/-! ### C6 — ambiguous ownership -/

/-- An ambiguously-tagged owned service makes the collection loop raise. -/
theorem collect_owned_error_of_ambiguous (registration_id : String) :
    ∀ (data : List (String × AgentService)) (service_id : String)
      (svc : AgentService) (tags : List String),
      (service_id, svc) ∈ data → svc.tags = some tags →
      reg_id_tag registration_id ∈ tags →
      1 < (tags.filter (fun t => str_starts_with t (consular_tag_key "app-id"))).length →
      ∃ e, collect_owned_services registration_id data = .error e := by
  intro data
  induction data with
  | nil =>
    intro _ _ _ hmem
    simp at hmem
  | cons entry rest ih =>
    intro service_id svc tags hmem htags hreg hmulti
    obtain ⟨sid0, svc0⟩ := entry
    rcases List.mem_cons.mp hmem with heq | hmem'
    · obtain ⟨h1, h2⟩ := Prod.mk.inj heq
      subst h1
      subst h2
      have hfail : ∃ e, get_app_id_from_tags tags = .error e := by
        rcases hf : tags.filter (fun t => str_starts_with t (consular_tag_key "app-id"))
          with _ | ⟨t1, ts⟩
        · rw [hf] at hmulti
          simp at hmulti
        · rcases ts with _ | ⟨t2, ts'⟩
          · rw [hf] at hmulti
            simp at hmulti
          · rcases hres : get_app_id_from_tags tags with e2 | o
            · exact ⟨e2, rfl⟩
            · exfalso
              simp only [get_app_id_from_tags, find_consular_tag, hf] at hres
              exact Except.noConfusion hres
      obtain ⟨e, he⟩ := hfail
      refine ⟨e, ?_⟩
      simp only [collect_owned_services, htags]
      rw [if_pos ⟨List.ne_nil_of_mem hreg, hreg⟩, he]
    · obtain ⟨e, he⟩ := ih service_id svc tags hmem' htags hreg hmulti
      rcases htags0 : svc0.tags with _ | tags0
      · refine ⟨e, ?_⟩
        simp only [collect_owned_services, htags0]
        exact he
      · by_cases hcond : tags0 ≠ [] ∧ reg_id_tag registration_id ∈ tags0
        · rcases happ : get_app_id_from_tags tags0 with e2 | o
          · refine ⟨e2, ?_⟩
            simp only [collect_owned_services, htags0]
            rw [if_pos hcond, happ]
          · rcases o with _ | app_id
            · refine ⟨e, ?_⟩
              simp only [collect_owned_services, htags0]
              rw [if_pos hcond, happ]
              exact he
            · refine ⟨e, ?_⟩
              simp only [collect_owned_services, htags0]
              rw [if_pos hcond, happ, he]
        · refine ⟨e, ?_⟩
          simp only [collect_owned_services, htags0]
          rw [if_neg hcond]
          exact he

/-- C6 counterexample: with the ambiguously-tagged `s1` listed alongside the
ordinarily-tagged dead `s2`, the whole per-agent purge aborts with the
multiple-tags error and `s2` is NOT deregistered, contradicting the claim
that only `s1`'s processing is aborted. -/
theorem purge_ambiguous_aborts_other_services :
    purge_dead_agent_services env_live_app "r" agent_data_ambiguous =
      .error ("Multiple (2) Consular tags found for key \"consular-app-id=\": " ++
        "['consular-app-id=/a', 'consular-app-id=/b']") ∧
    ¬ ∃ out, purge_dead_agent_services env_live_app "r" agent_data_ambiguous =
      .ok out := by
  refine ⟨rfl, ?_⟩
  rintro ⟨out, h⟩
  rw [show purge_dead_agent_services env_live_app "r" agent_data_ambiguous =
    .error ("Multiple (2) Consular tags found for key \"consular-app-id=\": " ++
      "['consular-app-id=/a', 'consular-app-id=/b']") from rfl] at h
  exact Except.noConfusion h

/-- C6 (amended): when any service at an agent carries the bridge's reg-id
tag together with more than one `consular-app-id=`-prefixed tag, the whole
per-agent purge fails: no service at that agent — dead or alive — is
deregistered (other agents are unaffected since each runs independently). -/
theorem purge_ambiguous_tags_abort (env : Env) (registration_id : String)
    (data : List (String × AgentService)) (service_id : String)
    (svc : AgentService) (tags : List String)
    (hmem : (service_id, svc) ∈ data) (htags : svc.tags = some tags)
    (hreg : reg_id_tag registration_id ∈ tags)
    (hmulti : 1 < (tags.filter (fun t =>
      str_starts_with t (consular_tag_key "app-id"))).length) :
    ∃ e, purge_dead_agent_services env registration_id data = .error e := by
  obtain ⟨e, he⟩ := collect_owned_error_of_ambiguous registration_id data
    service_id svc tags hmem htags hreg hmulti
  refine ⟨e, ?_⟩
  unfold purge_dead_agent_services
  rw [he]
  rfl

/-- C6 witness: the ambiguous agent data. -/
theorem purge_ambiguous_tags_abort_witness :
    ∃ e, purge_dead_agent_services env_live_app "r" agent_data_ambiguous =
      .error e :=
  purge_ambiguous_tags_abort env_live_app "r" agent_data_ambiguous "s1"
    ⟨"svc-a", some ["consular-reg-id=r", "consular-app-id=/a", "consular-app-id=/b"]⟩
    ["consular-reg-id=r", "consular-app-id=/a", "consular-app-id=/b"]
    (by decide) rfl (by decide) (by decide)

/-! ### Helper lemmas about the namespace-clash check -/

/-- Looking a name up after a `setdefault`-append. -/
theorem lookup_add_name_id (acc : List (String × List String)) (n i m : String) :
    List.lookup m (add_name_id acc n i) =
      if m = n then some (((List.lookup m acc).getD []) ++ [i])
      else List.lookup m acc := by
  induction acc with
  | nil =>
    by_cases h : m = n
    · subst h
      simp [add_name_id, List.lookup]
    · simp [add_name_id, List.lookup, h, beq_eq_false_iff_ne.mpr h]
  | cons entry rest ih =>
    obtain ⟨k, ids⟩ := entry
    by_cases hkn : k = n
    · subst hkn
      simp only [add_name_id, beq_self_eq_true, if_true]
      by_cases hmk : m = k
      · subst hmk
        simp [List.lookup]
      · simp [List.lookup, beq_eq_false_iff_ne.mpr hmk, hmk]
    · simp only [add_name_id, beq_eq_false_iff_ne.mpr hkn, Bool.false_eq_true, if_false]
      by_cases hmk : m = k
      · subst hmk
        have hmn : ¬ m = n := hkn
        simp [List.lookup, hmn]
      · simp [List.lookup, beq_eq_false_iff_ne.mpr hmk, ih]

/-- The id list the `check_apps_namespace_clash` fold accumulates under a
name is the list of ids of the apps bearing that name. -/
theorem lookup_name_ids_aux :
    ∀ (apps : List App) (acc : List (String × List String)) (m : String),
      List.lookup m (apps.foldl
        (fun acc a => add_name_id acc (get_app_name a.id) a.id) acc) =
      if (ids_for m apps).isEmpty then List.lookup m acc
      else some ((List.lookup m acc).getD [] ++ ids_for m apps) := by
  intro apps
  induction apps with
  | nil =>
    intro acc m
    simp [ids_for]
  | cons a rest ih =>
    intro acc m
    rw [List.foldl_cons, ih (add_name_id acc (get_app_name a.id) a.id) m,
      lookup_add_name_id]
    by_cases hm : m = get_app_name a.id
    · subst hm
      have hcons : ids_for (get_app_name a.id) (a :: rest) =
          a.id :: ids_for (get_app_name a.id) rest := by
        simp [ids_for, List.filter_cons]
      rw [hcons]
      simp only [List.isEmpty_cons, Bool.false_eq_true, if_false, if_pos rfl]
      by_cases hrest : (ids_for (get_app_name a.id) rest).isEmpty
      · rw [if_pos hrest]
        have hnil : ids_for (get_app_name a.id) rest = [] := by
          cases h : ids_for (get_app_name a.id) rest with
          | nil => rfl
          | cons x xs => rw [h] at hrest; simp at hrest
        rw [hnil]
        simp
      · rw [if_neg hrest]
        simp [List.append_assoc]
    · have hcons : ids_for m (a :: rest) = ids_for m rest := by
        have hne : ¬ get_app_name a.id = m := fun h => hm h.symm
        simp [ids_for, List.filter_cons, beq_eq_false_iff_ne.mpr hne]
      rw [hcons, if_neg hm]

/-- `List.lookup` in the name → ids map. -/
theorem lookup_name_ids (apps : List App) (m : String) :
    List.lookup m (name_ids apps) =
      if (ids_for m apps).isEmpty then none else some (ids_for m apps) := by
  have h := lookup_name_ids_aux apps [] m
  simpa [name_ids] using h

/-- A successful association-list lookup yields a member. -/
theorem mem_of_lookup_eq_some {β : Type} :
    ∀ (l : List (String × β)) (k : String) (v : β),
      List.lookup k l = some v → (k, v) ∈ l := by
  intro l
  induction l with
  | nil =>
    intro k v h
    simp [List.lookup] at h
  | cons entry rest ih =>
    intro k v h
    obtain ⟨k', v'⟩ := entry
    by_cases hk : k = k'
    · subst hk
      simp only [List.lookup, beq_self_eq_true] at h
      injection h with h'
      subst h'
      exact List.mem_cons_self _ _
    · simp only [List.lookup, beq_eq_false_iff_ne.mpr hk] at h
      exact List.mem_cons_of_mem _ (ih k v h)

/-- A list holding two distinct elements has more than one element. -/
theorem one_lt_length_of_two_mem {α : Type} {l : List α} {x y : α}
    (hx : x ∈ l) (hy : y ∈ l) (hne : x ≠ y) : 1 < l.length := by
  cases l with
  | nil => simp at hx
  | cons a t =>
    simp only [List.length_cons]
    rcases List.mem_cons.mp hx with rfl | hx'
    · rcases List.mem_cons.mp hy with rfl | hy'
      · exact absurd rfl hne
      · have := List.length_pos_of_mem hy'
        omega
    · have := List.length_pos_of_mem hx'
      omega

/-! ### C5 — namespace-clash atomicity -/

/-- C5: when two distinct app ids share an app name, `sync_apps` fails with
the namespace-clash error — whose collision lines are sorted and include a
line for the clashing name — and, the check preceding every callback, no
Consul request is issued (the result carries no request list). -/
theorem sync_apps_clash_is_atomic (cfg : Config) (env : Env) (apps : List App)
    (purge : Bool) (a1 a2 : App) (h1 : a1 ∈ apps) (h2 : a2 ∈ apps)
    (hne : a1.id ≠ a2.id) (hclash : get_app_name a1.id = get_app_name a2.id) :
    sync_apps cfg env apps purge = .error (clash_message apps) ∧
    List.Sorted str_le_prop (sorted_collision_lines apps) ∧
    ∃ line ∈ sorted_collision_lines apps,
      str_starts_with line (get_app_name a1.id ++ " => ") = true := by
  have hid1 : a1.id ∈ ids_for (get_app_name a1.id) apps := by
    simp only [ids_for, List.mem_map]
    exact ⟨a1, List.mem_filter.mpr ⟨h1, by simp⟩, rfl⟩
  have hid2 : a2.id ∈ ids_for (get_app_name a1.id) apps := by
    simp only [ids_for, List.mem_map]
    exact ⟨a2, List.mem_filter.mpr ⟨h2, by simp [hclash]⟩, rfl⟩
  have hlen : 1 < (ids_for (get_app_name a1.id) apps).length :=
    one_lt_length_of_two_mem hid1 hid2 hne
  have hne_nil : (ids_for (get_app_name a1.id) apps).isEmpty = false := by
    cases hc : ids_for (get_app_name a1.id) apps with
    | nil => rw [hc] at hlen; simp at hlen
    | cons _ _ => rfl
  have hlookup : List.lookup (get_app_name a1.id) (name_ids apps) =
      some (ids_for (get_app_name a1.id) apps) := by
    simp [lookup_name_ids, hne_nil]
  have hmem_nids : (get_app_name a1.id, ids_for (get_app_name a1.id) apps) ∈
      name_ids apps := mem_of_lookup_eq_some _ _ _ hlookup
  have hmem_coll : (get_app_name a1.id, ids_for (get_app_name a1.id) apps) ∈
      collisions apps := List.mem_filter.mpr ⟨hmem_nids, by simp [hlen]⟩
  have hline : (get_app_name a1.id ++ " => " ++
      join_sep ", " (ids_for (get_app_name a1.id) apps)) ∈ collision_lines apps := by
    simp only [collision_lines, List.mem_map]
    exact ⟨(get_app_name a1.id, ids_for (get_app_name a1.id) apps), hmem_coll, rfl⟩
  have hline_sorted : (get_app_name a1.id ++ " => " ++
      join_sep ", " (ids_for (get_app_name a1.id) apps)) ∈
      sorted_collision_lines apps :=
    (List.perm_insertionSort str_le_prop (collision_lines apps)).mem_iff.mpr hline
  have hcoll_ne : collisions apps ≠ [] := List.ne_nil_of_mem hmem_coll
  refine ⟨?_, List.sorted_insertionSort str_le_prop (collision_lines apps),
    ⟨_, hline_sorted, ?_⟩⟩
  · unfold sync_apps check_apps_namespace_clash
    cases hc : collisions apps with
    | nil => exact absurd hc hcoll_ne
    | cons c cs => rfl
  · unfold str_starts_with
    refine List.isPrefixOf_iff_prefix.mpr ?_
    rw [data_append, data_append, data_append]
    exact List.prefix_append _ _

/-- C5 witness: the clash scenario `/foo/bar` vs `/foo-bar` of the spec. -/
theorem sync_apps_clash_is_atomic_witness :
    sync_apps cfg0 env_live_app clash_apps true = .error (clash_message clash_apps) ∧
    List.Sorted str_le_prop (sorted_collision_lines clash_apps) ∧
    ∃ line ∈ sorted_collision_lines clash_apps,
      str_starts_with line (get_app_name "/foo/bar" ++ " => ") = true :=
  sync_apps_clash_is_atomic cfg0 env_live_app clash_apps true
    ⟨"/foo/bar", []⟩ ⟨"/foo-bar", []⟩ (by decide) (by decide) (by decide) (by decide)

end Consular
